import Mathlib

/-!
Verification of the alert-debouncing, queueing, classification and snapshot logic of
the smart-helmet-detector app (src/app.py).

The embedding models, faithfully to the Python source:
- the configuration constants CONFIDENCE_THRESHOLD, ALERT_COOLDOWN, SNAPSHOT_DIR;
- the background audio worker loop body of _audio_worker (its local last_time state,
  the cooldown test now - last_time >= ALERT_COOLDOWN, the try/except around playsound,
  and the assignment last_time = now that follows it);
- the producer-side play_alert guard over the capacity-1 queue;
- the per-detection loop of generate_frames (threshold filter, label classification,
  counts, overlay drawing, the no_helmet_detected flag);
- the violation branch of generate_frames (play_alert call, snapshot filename from
  datetime.now().strftime, the cv2.imwrite call whose boolean result is discarded).

Timestamps and confidences are modelled as rationals; Python string operations are
modelled on lists of characters.
-/

namespace HelmetApp

/-- Configuration constant CONFIDENCE_THRESHOLD = 0.5 from src/app.py. -/
def CONFIDENCE_THRESHOLD : ℚ := 0.5

/-- Configuration constant ALERT_COOLDOWN = 5 (seconds) from src/app.py. -/
def ALERT_COOLDOWN : ℚ := 5

/-- Configuration constant SNAPSHOT_DIR = "snapshots" from src/app.py. -/
def SNAPSHOT_DIR : String := "snapshots"

/-- State of the _audio_worker loop: its local variable last_time. -/
structure AudioState where
  last_time : ℚ
  deriving DecidableEq, Repr

/-- Initial worker state: last_time = 0 at the top of _audio_worker. -/
def initAudio : AudioState := ⟨0⟩

/-- One iteration of the _audio_worker loop body, after a request has been dequeued:
now is the value of time.time(), playOk records whether the playsound call returns
normally (true) or raises (false). The worker fires exactly when
now - last_time >= ALERT_COOLDOWN; a playsound exception is caught by the
try/except, and the assignment last_time = now sits after the try/except inside the
if-block, so the state update happens whether or not playback succeeded. The result
is the fired flag and the new state. -/
def audioStep (s : AudioState) (now : ℚ) (playOk : Bool) : Bool × AudioState :=
  if now - s.last_time ≥ ALERT_COOLDOWN then (true, ⟨now⟩) else (false, s)

/-- The _audio_worker loop run over a trace of dequeued requests, each a pair of the
dequeue time and the playback outcome. Returns the times at which the audible alert
actually fired (the times at which playsound was invoked). -/
def fireTimesP (s : AudioState) : List (ℚ × Bool) → List ℚ
  | [] => []
  | (t, ok) :: rest =>
    if (audioStep s t ok).1 then t :: fireTimesP (audioStep s t ok).2 rest
    else fireTimesP (audioStep s t ok).2 rest

/-- Number of fires falling in the half-open sliding window [a, a + ALERT_COOLDOWN). -/
def windowCount (l : List ℚ) (a : ℚ) : ℕ :=
  l.countP fun t => decide (a ≤ t ∧ t < a + ALERT_COOLDOWN)

lemma ALERT_COOLDOWN_pos : (0 : ℚ) < ALERT_COOLDOWN := by norm_num [ALERT_COOLDOWN]

lemma fireTimesP_cons (s : AudioState) (t : ℚ) (ok : Bool) (rest : List (ℚ × Bool)) :
    fireTimesP s ((t, ok) :: rest) =
      if ALERT_COOLDOWN ≤ t - s.last_time then t :: fireTimesP ⟨t⟩ rest
      else fireTimesP s rest := by
  by_cases h : ALERT_COOLDOWN ≤ t - s.last_time <;>
    simp [fireTimesP, audioStep, GE.ge, h]

lemma fireTimesP_lower (l : List (ℚ × Bool)) :
    ∀ (s : AudioState) (t : ℚ), t ∈ fireTimesP s l → s.last_time + ALERT_COOLDOWN ≤ t := by
  induction l with
  | nil => intro s t ht; simp [fireTimesP] at ht
  | cons p rest ih =>
    intro s t ht
    obtain ⟨tp, ok⟩ := p
    rw [fireTimesP_cons] at ht
    by_cases h : ALERT_COOLDOWN ≤ tp - s.last_time
    · rw [if_pos h] at ht
      rcases List.mem_cons.mp ht with h1 | h1
      · subst h1; linarith
      · have h2 := ih ⟨tp⟩ t h1
        have h3 : tp + ALERT_COOLDOWN ≤ t := h2
        have h4 := ALERT_COOLDOWN_pos
        linarith
    · rw [if_neg h] at ht
      exact ih s t ht

lemma fireTimesP_pairwise (l : List (ℚ × Bool)) :
    ∀ s : AudioState, (fireTimesP s l).Pairwise fun x y => x + ALERT_COOLDOWN ≤ y := by
  induction l with
  | nil => intro s; simp [fireTimesP]
  | cons p rest ih =>
    intro s
    obtain ⟨tp, ok⟩ := p
    rw [fireTimesP_cons]
    by_cases h : ALERT_COOLDOWN ≤ tp - s.last_time
    · rw [if_pos h]
      refine List.pairwise_cons.mpr ⟨?_, ih ⟨tp⟩⟩
      intro y hy
      exact fireTimesP_lower rest ⟨tp⟩ y hy
    · rw [if_neg h]
      exact ih s

lemma windowCount_le_one {l : List ℚ} (a : ℚ)
    (hp : l.Pairwise fun x y => x + ALERT_COOLDOWN ≤ y) : windowCount l a ≤ 1 := by
  induction l with
  | nil => simp [windowCount]
  | cons x rest ih =>
    have hx := List.pairwise_cons.mp hp
    unfold windowCount at *
    rw [List.countP_cons]
    by_cases hpx : a ≤ x ∧ x < a + ALERT_COOLDOWN
    · have h0 : (List.countP (fun t => decide (a ≤ t ∧ t < a + ALERT_COOLDOWN)) rest) = 0 := by
        rw [List.countP_eq_zero]
        intro y hy
        have hxy := hx.1 y hy
        simp only [decide_eq_true_eq, not_and, not_lt]
        intro _
        linarith [hpx.1, hpx.2]
      rw [h0]
      simp only [Nat.zero_add]
      split <;> simp
    · have hfalse : (decide (a ≤ x ∧ x < a + ALERT_COOLDOWN)) = false := by
        simpa using hpx
      simp only [hfalse, cond_false]
      simpa using ih (hx.2)

/-- C1: for every trace of violation events processed by the audio worker (each with
its dequeue timestamp and playback outcome), at most one audible alert fires within
any sliding window of length ALERT_COOLDOWN (default 5 seconds), no matter how many
violating events occur within that window. -/
theorem helmet_C1 (events : List (ℚ × Bool)) (a : ℚ) :
    windowCount (fireTimesP initAudio events) a ≤ 1 :=
  windowCount_le_one a (fireTimesP_pairwise events initAudio)

/-- C2: the debouncer keeps last_time, initialized to the sentinel 0 (never fired);
on an event at time now it fires exactly when now - last_time >= ALERT_COOLDOWN, and
on firing sets last_time = now, otherwise leaves the state unchanged. Scenario with
cooldown 5: after a fire at t = 0 (state last_time = 0), events at t = 1, 2, 3, 4 are
all suppressed, and an event at any t >= 5 fires again (boundary inclusive). -/
theorem helmet_C2 :
    initAudio.last_time = 0 ∧
    (∀ (s : AudioState) (now : ℚ) (ok : Bool),
      ((audioStep s now ok).1 = true ↔ ALERT_COOLDOWN ≤ now - s.last_time) ∧
      (audioStep s now ok).2 =
        (if ALERT_COOLDOWN ≤ now - s.last_time then ⟨now⟩ else s)) ∧
    (∀ ok : Bool, fireTimesP ⟨0⟩ [(1, ok), (2, ok), (3, ok), (4, ok)] = []) ∧
    (∀ t : ℚ, 5 ≤ t → (audioStep ⟨0⟩ t true).1 = true) := by
  refine ⟨rfl, ?_, ?_, ?_⟩
  · intro s now ok
    constructor
    · constructor
      · intro h
        by_contra hc
        simp only [audioStep, GE.ge] at h
        rw [if_neg hc] at h
        exact Bool.false_ne_true h
      · intro h
        simp [audioStep, GE.ge, h]
    · by_cases h : ALERT_COOLDOWN ≤ now - s.last_time <;> simp [audioStep, GE.ge, h]
  · intro ok
    rw [fireTimesP_cons, if_neg (by norm_num [ALERT_COOLDOWN])]
    rw [fireTimesP_cons, if_neg (by norm_num [ALERT_COOLDOWN])]
    rw [fireTimesP_cons, if_neg (by norm_num [ALERT_COOLDOWN])]
    rw [fireTimesP_cons, if_neg (by norm_num [ALERT_COOLDOWN])]
    rfl
  · intro t ht
    have h : ALERT_COOLDOWN ≤ t := by unfold ALERT_COOLDOWN; exact ht
    simp [audioStep, GE.ge, h]

/-- Witness for C2 at concrete inputs: the boundary event at t = 5 fires and the
events at t = 1, 2, 3, 4 after a fire at t = 0 are all suppressed. -/
theorem helmet_C2_witness :
    (5 : ℚ) ≤ 5 ∧ (audioStep ⟨0⟩ 5 true).1 = true ∧
    fireTimesP ⟨0⟩ [(1, true), (2, true), (3, true), (4, true)] = [] :=
  ⟨le_refl 5, helmet_C2.2.2.2 5 (le_refl 5), helmet_C2.2.2.1 true⟩

/-- C8 counterexample: after the worker fires at t = 1000 (a state reachable from the
initial state, first conjunct), an event at now = 0 has negative elapsed
(0 - 1000 < 0) yet is suppressed with the state unchanged rather than firing
immediately: the code contains no clamping of negative elapsed. -/
theorem helmet_C8_counterexample :
    audioStep initAudio 1000 true = (true, ⟨1000⟩) ∧
    (0 : ℚ) - (1000 : ℚ) < 0 ∧
    audioStep ⟨1000⟩ 0 true = (false, ⟨1000⟩) := by
  refine ⟨?_, by norm_num, ?_⟩ <;>
    norm_num [audioStep, initAudio, ALERT_COOLDOWN, GE.ge]

/-- C8 amended: the implementation does not clamp negative elapsed. An event at time
now with now - last_time < ALERT_COOLDOWN (in particular any event whose elapsed is
negative because the clock went backward) is suppressed with the state unchanged; the
state is nevertheless not permanently stuck on suppress: any event at a time now with
last_time + ALERT_COOLDOWN ≤ now fires. -/
theorem helmet_C8 (s : AudioState) (now : ℚ) (ok : Bool) :
    (now - s.last_time < ALERT_COOLDOWN → audioStep s now ok = (false, s)) ∧
    (s.last_time + ALERT_COOLDOWN ≤ now → (audioStep s now ok).1 = true) := by
  constructor
  · intro h
    have h2 : ¬ (now - s.last_time ≥ ALERT_COOLDOWN) := by
      simp only [GE.ge, not_le]
      exact h
    simp [audioStep, h2]
  · intro h
    have h2 : now - s.last_time ≥ ALERT_COOLDOWN := by
      simp only [GE.ge]
      linarith
    simp [audioStep, h2]

/-- Witness for C8 amended: with last_time = 1000, the event at now = 0 (negative
elapsed) is suppressed and the event at now = 1005 fires. -/
theorem helmet_C8_witness :
    ((0 : ℚ) - (⟨1000⟩ : AudioState).last_time < ALERT_COOLDOWN ∧
      audioStep ⟨1000⟩ 0 true = (false, ⟨1000⟩)) ∧
    ((⟨1000⟩ : AudioState).last_time + ALERT_COOLDOWN ≤ 1005 ∧
      (audioStep ⟨1000⟩ 1005 true).1 = true) := by
  have h1 : (0 : ℚ) - (⟨1000⟩ : AudioState).last_time < ALERT_COOLDOWN := by
    norm_num [ALERT_COOLDOWN]
  have h2 : (⟨1000⟩ : AudioState).last_time + ALERT_COOLDOWN ≤ (1005 : ℚ) := by
    norm_num [ALERT_COOLDOWN]
  exact ⟨⟨h1, (helmet_C8 ⟨1000⟩ 0 true).1 h1⟩, ⟨h2, (helmet_C8 ⟨1000⟩ 1005 true).2 h2⟩⟩

/-- C10: whenever a dequeued request passes the cooldown check, the worker fires and
last_time is set to now regardless of the playback outcome (the assignment sits after
the try/except); moreover the worker loop continues past a caught playback exception,
and the entire trace of fires is independent of the playback outcomes, so a failed
playback consumes a full cooldown window exactly as a successful one does and no
later alert fires earlier to compensate. -/
theorem helmet_C10 :
    (∀ (s : AudioState) (now : ℚ) (ok : Bool),
        ALERT_COOLDOWN ≤ now - s.last_time →
          (audioStep s now ok).1 = true ∧ (audioStep s now ok).2.last_time = now) ∧
    (∀ (s : AudioState) (l : List (ℚ × Bool)),
        fireTimesP s l = fireTimesP s (l.map fun p => (p.1, true))) := by
  constructor
  · intro s now ok h
    constructor <;> simp [audioStep, GE.ge, h]
  · intro s l
    induction l generalizing s with
    | nil => rfl
    | cons p rest ih =>
      obtain ⟨tp, okp⟩ := p
      simp only [List.map_cons]
      rw [fireTimesP_cons, fireTimesP_cons]
      by_cases h : ALERT_COOLDOWN ≤ tp - s.last_time
      · rw [if_pos h, if_pos h, ih]
      · rw [if_neg h, if_neg h, ih]

/-- Witness for C10: from the initial state, a request at time 7 whose playback
raises still fires and still sets last_time to 7. -/
theorem helmet_C10_witness :
    ALERT_COOLDOWN ≤ (7 : ℚ) - initAudio.last_time ∧
    (audioStep initAudio 7 false).1 = true ∧
    (audioStep initAudio 7 false).2.last_time = 7 := by
  have h : ALERT_COOLDOWN ≤ (7 : ℚ) - initAudio.last_time := by
    norm_num [ALERT_COOLDOWN, initAudio]
  exact ⟨h, (helmet_C10.1 initAudio 7 false h).1, (helmet_C10.1 initAudio 7 false h).2⟩

/-- Combined state of the alert mechanism: whether the capacity-1 _audio_queue
currently holds a request (slotOccupied, i.e. not _audio_queue.empty()), whether the
worker has dequeued a request and is inside the loop body executing it (playing), and
the worker-local debounce state. -/
structure SoundState where
  slotOccupied : Bool
  playing : Bool
  audio : AudioState
  deriving DecidableEq, Repr

/-- Initial alert-mechanism state: empty queue, idle worker, last_time = 0. -/
def initSound : SoundState := ⟨false, false, initAudio⟩

/-- Outcome of a producer-side fire request. -/
inductive ReqOutcome
  | enqueued
  | dropped
  deriving DecidableEq, Repr

/-- play_alert from src/app.py: the producer enqueues a request exactly when
_audio_queue.empty() holds (the queue slot is unoccupied), and otherwise does
nothing, so the request is dropped. Note that _audio_queue.empty() consults only the
queue contents: a request that the worker has already dequeued and is executing does
not occupy the slot. -/
def play_alert (s : SoundState) : ReqOutcome × SoundState :=
  if s.slotOccupied then (ReqOutcome.dropped, s)
  else (ReqOutcome.enqueued, { s with slotOccupied := true })

/-- The worker executing _audio_queue.get(): the queued request is removed from the
slot and the worker enters the loop body. -/
def workerDequeue (s : SoundState) : SoundState :=
  { s with slotOccupied := false, playing := true }

/-- The remainder of the worker loop body at time now with playback outcome ok:
the debounce step runs and the worker returns to blocking on the queue. -/
def workerRun (s : SoundState) (now : ℚ) (ok : Bool) : Bool × SoundState :=
  ((audioStep s.audio now ok).1,
   { s with playing := false, audio := (audioStep s.audio now ok).2 })

/-- C4 counterexample: from the initial state, enqueue a request and let the worker
dequeue it; the resulting state has the previous alert request in flight (playing)
with the queue slot empty, and a new fire request arriving in this state is enqueued,
not dropped — refuting the claim that a request arriving while a previous request is
queued or executing is always dropped. -/
theorem helmet_C4_counterexample :
    (workerDequeue (play_alert initSound).2).playing = true ∧
    (workerDequeue (play_alert initSound).2).slotOccupied = false ∧
    (play_alert (workerDequeue (play_alert initSound).2)).1 = ReqOutcome.enqueued := by
  refine ⟨rfl, rfl, rfl⟩

/-- C4 amended: a new fire request is dropped exactly when a request is already
queued in the capacity-1 slot; it is never blocked on (play_alert is a total step).
A request arriving while the previous request has already been dequeued and is
executing is enqueued, not dropped. Dropping leaves the state unchanged, and after an
enqueue the slot is occupied, so a further request arriving before the worker
dequeues is dropped: at most one request is ever pending and no alert backlog forms. -/
theorem helmet_C4 (s : SoundState) :
    ((play_alert s).1 = ReqOutcome.dropped ↔ s.slotOccupied = true) ∧
    ((play_alert s).1 = ReqOutcome.dropped → (play_alert s).2 = s) ∧
    ((play_alert s).1 = ReqOutcome.enqueued →
      (play_alert s).2.slotOccupied = true ∧
      (play_alert (play_alert s).2).1 = ReqOutcome.dropped) := by
  by_cases h : s.slotOccupied = true
  · refine ⟨⟨fun _ => h, fun _ => ?_⟩, fun _ => ?_, fun hc => ?_⟩
    · simp [play_alert, h]
    · simp [play_alert, h]
    · simp [play_alert, h] at hc
  · have h2 : s.slotOccupied = false := by
      cases hval : s.slotOccupied
      · rfl
      · exact absurd hval h
    refine ⟨⟨fun hc => ?_, fun hc => absurd hc h⟩, fun hc => ?_, fun _ => ⟨?_, ?_⟩⟩
    · simp [play_alert, h2] at hc
    · simp [play_alert, h2] at hc
    · simp [play_alert, h2]
    · simp [play_alert, h2]

/-- Witness for C4 amended at concrete states: with the slot occupied a request is
dropped and the state is unchanged; from the initial state a request is enqueued,
occupies the slot, and the next request is dropped. -/
theorem helmet_C4_witness :
    (play_alert ⟨true, false, ⟨0⟩⟩).2 = ⟨true, false, ⟨0⟩⟩ ∧
    (play_alert initSound).2.slotOccupied = true ∧
    (play_alert (play_alert initSound).2).1 = ReqOutcome.dropped := by
  refine ⟨(helmet_C4 ⟨true, false, ⟨0⟩⟩).2.1 rfl, ?_, ?_⟩
  · exact ((helmet_C4 initSound).2.2 rfl).1
  · exact ((helmet_C4 initSound).2.2 rfl).2

/-- Python substring containment: strContains hay needle models the Python
expression needle in hay, on strings viewed as lists of characters. -/
def strContains : List Char → List Char → Bool
  | [], needle => needle.isEmpty
  | c :: rest, needle => needle.isPrefixOf (c :: rest) || strContains rest needle

/-- Python str.lower, on the ASCII class labels this model produces. -/
def lowerChars (l : List Char) : List Char := l.map Char.toLower

/-- One YOLO detection as consumed by generate_frames: class label (model.names of
the class id), confidence (float(box.conf)) and bounding-box corners (box.xyxy). -/
structure Detection where
  label : String
  conf : ℚ
  x1 : ℤ
  y1 : ℤ
  x2 : ℤ
  y2 : ℤ
  deriving DecidableEq, Repr

/-- The compliant test in generate_frames, applied to detections that survived the
threshold filter: "helmet" in label.lower() and "no" not in label.lower(). -/
def isCompliantLabel (label : String) : Bool :=
  strContains (lowerChars label.data) "helmet".data &&
    !(strContains (lowerChars label.data) "no".data)

/-- A detection survives the threshold filter, i.e. is not skipped by the
continue on conf < CONFIDENCE_THRESHOLD. -/
def kept (d : Detection) : Bool := decide (CONFIDENCE_THRESHOLD ≤ d.conf)

/-- OpenCV BGR color for compliant overlays, (0, 255, 0) in generate_frames. -/
def GREEN : ℕ × ℕ × ℕ := (0, 255, 0)

/-- OpenCV BGR color for violation overlays, (0, 0, 255) in generate_frames. -/
def RED : ℕ × ℕ × ℕ := (0, 0, 255)

/-- One rectangle-plus-text overlay drawn onto the frame for a kept detection; the
rendered text is the label and the confidence (Python f-string label (conf:.2f)). -/
structure Overlay where
  x1 : ℤ
  y1 : ℤ
  x2 : ℤ
  y2 : ℤ
  color : ℕ × ℕ × ℕ
  textLabel : String
  textConf : ℚ
  deriving DecidableEq, Repr

/-- The per-frame accumulator of the detection loop in generate_frames: the two
counts, the violation flag, and the overlays drawn so far. -/
structure FrameCounts where
  helmet_count : ℕ
  no_helmet_count : ℕ
  no_helmet_detected : Bool
  overlays : List Overlay
  deriving DecidableEq, Repr

/-- Loop-entry values: helmet_count = 0, no_helmet_count = 0,
no_helmet_detected = False, nothing drawn yet. -/
def initCounts : FrameCounts := ⟨0, 0, false, []⟩

/-- One iteration of the for-box-in-detections loop of generate_frames: skip the
detection when conf < CONFIDENCE_THRESHOLD; otherwise classify by the label test,
bump the matching count, set the violation flag on a violation, and draw the
rectangle and text in the matching color. -/
def procDet (acc : FrameCounts) (d : Detection) : FrameCounts :=
  if d.conf < CONFIDENCE_THRESHOLD then acc
  else if isCompliantLabel d.label then
    { acc with helmet_count := acc.helmet_count + 1,
               overlays := acc.overlays ++ [⟨d.x1, d.y1, d.x2, d.y2, GREEN, d.label, d.conf⟩] }
  else
    { acc with no_helmet_count := acc.no_helmet_count + 1,
               no_helmet_detected := true,
               overlays := acc.overlays ++ [⟨d.x1, d.y1, d.x2, d.y2, RED, d.label, d.conf⟩] }

/-- The whole detection loop of generate_frames over the detections of one frame. -/
def processDetections (ds : List Detection) : FrameCounts :=
  ds.foldl procDet initCounts

lemma procDet_below (acc : FrameCounts) (d : Detection)
    (h : d.conf < CONFIDENCE_THRESHOLD) : procDet acc d = acc := by
  simp [procDet, h]

lemma kept_false {d : Detection} (h : d.conf < CONFIDENCE_THRESHOLD) : kept d = false := by
  simp only [kept, decide_eq_false_iff_not, not_le]
  exact h

lemma kept_true {d : Detection} (h : ¬ d.conf < CONFIDENCE_THRESHOLD) : kept d = true := by
  simp only [kept, decide_eq_true_eq]
  exact not_lt.mp h

lemma foldl_helmet (ds : List Detection) : ∀ acc : FrameCounts,
    (ds.foldl procDet acc).helmet_count =
      acc.helmet_count + ds.countP fun d => kept d && isCompliantLabel d.label := by
  induction ds with
  | nil => intro acc; simp
  | cons d rest ih =>
    intro acc
    simp only [List.foldl_cons, List.countP_cons]
    rw [ih (procDet acc d)]
    by_cases h : d.conf < CONFIDENCE_THRESHOLD
    · rw [procDet_below acc d h]
      simp [kept_false h]
    · by_cases hc : isCompliantLabel d.label = true
      · have hstep : (procDet acc d).helmet_count = acc.helmet_count + 1 := by
          simp [procDet, h, hc]
        rw [hstep]
        simp only [kept_true h, hc, Bool.and_self]
        simp
        omega
      · have hcf : isCompliantLabel d.label = false := by
          cases hv : isCompliantLabel d.label
          · rfl
          · exact absurd hv hc
        have hstep : (procDet acc d).helmet_count = acc.helmet_count := by
          simp [procDet, h, hcf]
        rw [hstep]
        simp [kept_true h, hcf]

lemma foldl_noHelmet (ds : List Detection) : ∀ acc : FrameCounts,
    (ds.foldl procDet acc).no_helmet_count =
      acc.no_helmet_count + ds.countP fun d => kept d && !(isCompliantLabel d.label) := by
  induction ds with
  | nil => intro acc; simp
  | cons d rest ih =>
    intro acc
    simp only [List.foldl_cons, List.countP_cons]
    rw [ih (procDet acc d)]
    by_cases h : d.conf < CONFIDENCE_THRESHOLD
    · rw [procDet_below acc d h]
      simp [kept_false h]
    · by_cases hc : isCompliantLabel d.label = true
      · have hstep : (procDet acc d).no_helmet_count = acc.no_helmet_count := by
          simp [procDet, h, hc]
        rw [hstep]
        simp [kept_true h, hc]
      · have hcf : isCompliantLabel d.label = false := by
          cases hv : isCompliantLabel d.label
          · rfl
          · exact absurd hv hc
        have hstep : (procDet acc d).no_helmet_count = acc.no_helmet_count + 1 := by
          simp [procDet, h, hcf]
        rw [hstep]
        simp only [kept_true h, hcf, Bool.not_false, Bool.and_self]
        simp
        omega

lemma foldl_detected (ds : List Detection) : ∀ acc : FrameCounts,
    (ds.foldl procDet acc).no_helmet_detected =
      (acc.no_helmet_detected || ds.any fun d => kept d && !(isCompliantLabel d.label)) := by
  induction ds with
  | nil => intro acc; simp
  | cons d rest ih =>
    intro acc
    simp only [List.foldl_cons, List.any_cons]
    rw [ih (procDet acc d)]
    by_cases h : d.conf < CONFIDENCE_THRESHOLD
    · rw [procDet_below acc d h]
      simp [kept_false h]
    · by_cases hc : isCompliantLabel d.label = true
      · have hstep : (procDet acc d).no_helmet_detected = acc.no_helmet_detected := by
          simp [procDet, h, hc]
        rw [hstep]
        simp [kept_true h, hc]
      · have hcf : isCompliantLabel d.label = false := by
          cases hv : isCompliantLabel d.label
          · rfl
          · exact absurd hv hc
        have hstep : (procDet acc d).no_helmet_detected = true := by
          simp [procDet, h, hcf]
        rw [hstep]
        simp [kept_true h, hcf]

lemma countP_partition (ds : List Detection) :
    (ds.countP fun d => kept d && isCompliantLabel d.label) +
      (ds.countP fun d => kept d && !(isCompliantLabel d.label)) =
      ds.countP fun d => kept d := by
  induction ds with
  | nil => rfl
  | cons d rest ih =>
    simp only [List.countP_cons]
    cases hk : kept d <;> cases hc : isCompliantLabel d.label <;> simp [hk, hc] <;> omega

lemma detected_iff (ds : List Detection) :
    (processDetections ds).no_helmet_detected = true ↔
      ∃ d ∈ ds, CONFIDENCE_THRESHOLD ≤ d.conf ∧ isCompliantLabel d.label = false := by
  rw [processDetections, foldl_detected ds initCounts]
  simp only [initCounts, Bool.false_or, List.any_eq_true, Bool.and_eq_true,
    Bool.not_eq_true', kept, decide_eq_true_eq]

/-- The violation branch of generate_frames for one frame: when the detection loop
has set no_helmet_detected, the code calls play_alert and then performs exactly one
cv2.imwrite snapshot attempt; writeOk is the boolean result of that cv2.imwrite,
which the code discards (the call is not checked, logged or raised on). The result
is the number of snapshot write attempts and the updated alert state. -/
def frameStep (ds : List Detection) (writeOk : Bool) (s : SoundState) : ℕ × SoundState :=
  if (processDetections ds).no_helmet_detected then (1, (play_alert s).2) else (0, s)

/-- C3: per frame, a snapshot write attempt happens exactly when some above-threshold
detection is classified as a violation, there is never more than one attempt per
frame, and the number of attempts does not depend on the alert state at all: the
write happens even when the audible alert is suppressed by the cooldown or dropped
by the occupied queue slot. -/
theorem helmet_C3 (ds : List Detection) (wOk : Bool) (s t : SoundState) :
    ((frameStep ds wOk s).1 = 1 ↔
      ∃ d ∈ ds, CONFIDENCE_THRESHOLD ≤ d.conf ∧ isCompliantLabel d.label = false) ∧
    ((frameStep ds wOk s).1 = 1 ∨ (frameStep ds wOk s).1 = 0) ∧
    (frameStep ds wOk s).1 = (frameStep ds wOk t).1 := by
  by_cases h : (processDetections ds).no_helmet_detected = true
  · refine ⟨?_, Or.inl ?_, ?_⟩ <;> simp [frameStep, h, (detected_iff ds).mp h]
  · have hf : (processDetections ds).no_helmet_detected = false := by
      cases hv : (processDetections ds).no_helmet_detected
      · rfl
      · exact absurd hv h
    refine ⟨?_, Or.inr ?_, ?_⟩ <;> simp [frameStep, hf]
    intro d hd hconf
    by_contra hc
    exact h ((detected_iff ds).mpr ⟨d, hd, hconf, by
      cases hv : isCompliantLabel d.label
      · rfl
      · exact absurd hv hc⟩)

/-- C5: a detection whose confidence is strictly below CONFIDENCE_THRESHOLD is
excluded entirely: one loop iteration on it leaves the accumulator unchanged (no
count, no violation flag, no overlay drawn), and inserting it anywhere into the
detection list leaves the entire frame result unchanged. -/
theorem helmet_C5 (acc : FrameCounts) (d : Detection) (pre post : List Detection)
    (h : d.conf < CONFIDENCE_THRESHOLD) :
    procDet acc d = acc ∧
    processDetections (pre ++ d :: post) = processDetections (pre ++ post) := by
  refine ⟨procDet_below acc d h, ?_⟩
  unfold processDetections
  rw [List.foldl_append, List.foldl_append, List.foldl_cons, procDet_below _ d h]

/-- Witness for C5 at the spec scenario: a detection labelled "no-helmet" with
confidence 0.4 under threshold 0.5 is excluded entirely. -/
theorem helmet_C5_witness :
    (0.4 : ℚ) < CONFIDENCE_THRESHOLD ∧
    procDet initCounts ⟨"no-helmet", 0.4, 0, 0, 10, 10⟩ = initCounts ∧
    processDetections ([] ++ ⟨"no-helmet", 0.4, 0, 0, 10, 10⟩ :: []) =
      processDetections ([] ++ []) := by
  have h : (0.4 : ℚ) < CONFIDENCE_THRESHOLD := by norm_num [CONFIDENCE_THRESHOLD]
  exact ⟨h, (helmet_C5 initCounts ⟨"no-helmet", 0.4, 0, 0, 10, 10⟩ [] [] h).1,
    (helmet_C5 initCounts ⟨"no-helmet", 0.4, 0, 0, 10, 10⟩ [] [] h).2⟩

/-- C6: over the detections of a frame, the compliant count is the number of kept
(above-threshold) detections whose lowercased label contains "helmet" and not "no",
the violation count is the number of kept detections failing that test, the two
counts partition the kept detections, and the violation flag no_helmet_detected is
set exactly when at least one kept detection is classified as a violation. -/
theorem helmet_C6 (ds : List Detection) :
    (processDetections ds).helmet_count =
      (ds.countP fun d => kept d && isCompliantLabel d.label) ∧
    (processDetections ds).no_helmet_count =
      (ds.countP fun d => kept d && !(isCompliantLabel d.label)) ∧
    (processDetections ds).helmet_count + (processDetections ds).no_helmet_count =
      (ds.countP fun d => kept d) ∧
    ((processDetections ds).no_helmet_detected = true ↔
      ∃ d ∈ ds, CONFIDENCE_THRESHOLD ≤ d.conf ∧ isCompliantLabel d.label = false) := by
  have h1 : (processDetections ds).helmet_count =
      (ds.countP fun d => kept d && isCompliantLabel d.label) := by
    rw [processDetections, foldl_helmet ds initCounts]
    simp [initCounts]
  have h2 : (processDetections ds).no_helmet_count =
      (ds.countP fun d => kept d && !(isCompliantLabel d.label)) := by
    rw [processDetections, foldl_noHelmet ds initCounts]
    simp [initCounts]
  refine ⟨h1, h2, ?_, detected_iff ds⟩
  rw [h1, h2, countP_partition]

/-- C7: the claim says snapshot write failures are surfaced as explicit errors. In
the code the boolean result of cv2.imwrite is discarded, so at the failing input (a
violating frame, first conjunct, whose imwrite returns failure) the step behaves
identically to the success case: the failure is silently swallowed and nothing is
surfaced. -/
theorem helmet_C7 :
    (processDetections [⟨"no-helmet", 0.9, 0, 0, 10, 10⟩]).no_helmet_detected = true ∧
    frameStep [⟨"no-helmet", 0.9, 0, 0, 10, 10⟩] false initSound =
      frameStep [⟨"no-helmet", 0.9, 0, 0, 10, 10⟩] true initSound := by
  constructor
  · have h : ¬ ((0.9 : ℚ) < CONFIDENCE_THRESHOLD) := by norm_num [CONFIDENCE_THRESHOLD]
    have hc : isCompliantLabel "no-helmet" = false := by decide
    simp [processDetections, procDet, h, hc, initCounts]
  · rfl

/-- A wall-clock timestamp at second granularity, the data consumed by
datetime.now().strftime("%Y%m%d_%H%M%S") in generate_frames. -/
structure Timestamp where
  year : ℕ
  month : ℕ
  day : ℕ
  hour : ℕ
  minute : ℕ
  second : ℕ
  deriving DecidableEq, Repr

/-- Field ranges of a timestamp datetime.now() can produce (years limited to four
digits, which is the fixed width of %Y). -/
def Timestamp.Valid (t : Timestamp) : Prop :=
  t.year < 10000 ∧ 1 ≤ t.month ∧ t.month ≤ 12 ∧ 1 ≤ t.day ∧ t.day ≤ 31 ∧
    t.hour < 24 ∧ t.minute < 60 ∧ t.second < 60

instance (t : Timestamp) : Decidable t.Valid :=
  inferInstanceAs (Decidable (t.year < 10000 ∧ 1 ≤ t.month ∧ t.month ≤ 12 ∧ 1 ≤ t.day ∧
    t.day ≤ 31 ∧ t.hour < 24 ∧ t.minute < 60 ∧ t.second < 60))

/-- Zero-padded two-digit decimal field of strftime (%m, %d, %H, %M, %S), written
digit by digit; for a field value below 100 this is exactly the zero-padded decimal
strftime emits. -/
def pad2 (n : ℕ) : List Char := [Nat.digitChar (n / 10 % 10), Nat.digitChar (n % 10)]

/-- Zero-padded four-digit decimal field of strftime (%Y for four-digit years). -/
def pad4 (n : ℕ) : List Char :=
  [Nat.digitChar (n / 1000 % 10), Nat.digitChar (n / 100 % 10),
   Nat.digitChar (n / 10 % 10), Nat.digitChar (n % 10)]

/-- The characters of datetime.now().strftime("%Y%m%d_%H%M%S"). -/
def Timestamp.strftimeChars (t : Timestamp) : List Char :=
  pad4 t.year ++ (pad2 t.month ++ (pad2 t.day ++ (['_'] ++
    (pad2 t.hour ++ (pad2 t.minute ++ pad2 t.second)))))

/-- The snapshot path built in generate_frames:
os.path.join(SNAPSHOT_DIR, f"no_helmet_{ts}.jpg"). -/
def snapshotFilename (t : Timestamp) : String :=
  String.mk ((SNAPSHOT_DIR ++ "/no_helmet_").data ++ (t.strftimeChars ++ ".jpg".data))

lemma digitChar_injOn : ∀ a < 10, ∀ b < 10, Nat.digitChar a = Nat.digitChar b → a = b := by
  decide

lemma pad2_inj {a b : ℕ} (ha : a < 100) (hb : b < 100) (h : pad2 a = pad2 b) : a = b := by
  simp only [pad2, List.cons.injEq, and_true] at h
  have h1 := digitChar_injOn _ (Nat.mod_lt _ (by omega)) _ (Nat.mod_lt _ (by omega)) h.1
  have h2 := digitChar_injOn _ (Nat.mod_lt _ (by omega)) _ (Nat.mod_lt _ (by omega)) h.2
  omega

lemma pad4_inj {a b : ℕ} (ha : a < 10000) (hb : b < 10000) (h : pad4 a = pad4 b) :
    a = b := by
  simp only [pad4, List.cons.injEq, and_true] at h
  have h1 := digitChar_injOn _ (Nat.mod_lt _ (by omega)) _ (Nat.mod_lt _ (by omega)) h.1
  have h2 := digitChar_injOn _ (Nat.mod_lt _ (by omega)) _ (Nat.mod_lt _ (by omega)) h.2.1
  have h3 := digitChar_injOn _ (Nat.mod_lt _ (by omega)) _ (Nat.mod_lt _ (by omega)) h.2.2.1
  have h4 := digitChar_injOn _ (Nat.mod_lt _ (by omega)) _ (Nat.mod_lt _ (by omega)) h.2.2.2
  omega

lemma strftimeChars_inj {t1 t2 : Timestamp} (h1 : t1.Valid) (h2 : t2.Valid)
    (h : t1.strftimeChars = t2.strftimeChars) : t1 = t2 := by
  obtain ⟨hy1, hm1a, hm1b, hd1a, hd1b, hh1, hmi1, hs1⟩ := h1
  obtain ⟨hy2, hm2a, hm2b, hd2a, hd2b, hh2, hmi2, hs2⟩ := h2
  unfold Timestamp.strftimeChars at h
  obtain ⟨hY, h⟩ := List.append_inj h rfl
  obtain ⟨hM, h⟩ := List.append_inj h rfl
  obtain ⟨hD, h⟩ := List.append_inj h rfl
  obtain ⟨-, h⟩ := List.append_inj h rfl
  obtain ⟨hH, hrest⟩ := List.append_inj h rfl
  obtain ⟨hMi, hS⟩ := List.append_inj hrest rfl
  obtain ⟨y1, mo1, d1, ho1, mi1, s1⟩ := t1
  obtain ⟨y2, mo2, d2, ho2, mi2, s2⟩ := t2
  simp only at hY hM hD hH hMi hS hy1 hy2 hm1b hm2b hd1b hd2b hh1 hh2 hmi1 hmi2 hs1 hs2
  have := pad4_inj hy1 hy2 hY
  have := pad2_inj (by omega) (by omega) hM
  have := pad2_inj (by omega) (by omega) hD
  have := pad2_inj (by omega) (by omega) hH
  have := pad2_inj (by omega) (by omega) hMi
  have := pad2_inj (by omega) (by omega) hS
  simp only [Timestamp.mk.injEq]
  omega

/-- C9: snapshot files go into SNAPSHOT_DIR under the name
no_helmet_YYYYMMDD_HHMMSS.jpg derived from the capture timestamp at second
granularity: for valid timestamps the filename determines the timestamp, so two
writes in different seconds get distinct filenames, while two writes in the same
second (equal second-granularity timestamps) get the same filename and collide. -/
theorem helmet_C9 (t1 t2 : Timestamp) (h1 : t1.Valid) (h2 : t2.Valid) :
    snapshotFilename t1 = snapshotFilename t2 ↔ t1 = t2 := by
  constructor
  · intro h
    unfold snapshotFilename at h
    injection h with h
    have hmid := List.append_cancel_left h
    exact strftimeChars_inj h1 h2 (List.append_cancel_right hmid)
  · intro h
    rw [h]

/-- Witness for C9: two concrete timestamps one second apart are both valid and get
distinct filenames, and the claimed equivalence evaluates at them. -/
theorem helmet_C9_witness :
    (Timestamp.mk 2026 10 12 9 30 0).Valid ∧ (Timestamp.mk 2026 10 12 9 30 1).Valid ∧
    (snapshotFilename ⟨2026, 10, 12, 9, 30, 0⟩ = snapshotFilename ⟨2026, 10, 12, 9, 30, 1⟩ ↔
      (⟨2026, 10, 12, 9, 30, 0⟩ : Timestamp) = ⟨2026, 10, 12, 9, 30, 1⟩) :=
  ⟨by decide, by decide,
    helmet_C9 ⟨2026, 10, 12, 9, 30, 0⟩ ⟨2026, 10, 12, 9, 30, 1⟩ (by decide) (by decide)⟩

end HelmetApp
